import Mathlib

/-!
Shallow embedding of the `MonacoEditor` editor-coordination component
(`src/packages/commutable/src/cells.ts`, component section) of the nteract
front-end rendering layer.

The component owns one mutable native editor instance plus one text model and
bridges declarative configuration updates to imperative editor calls.  The
embedding models the component instance as an explicit state record
(`MonacoState`), the native editor and the global model registry as data, and
every imperative call to the native layer as an `Effect` appended to a trace.
Lifecycle methods (`componentDidMount`, `componentDidUpdate`,
`componentWillUnmount`) and the layout machinery (`requestLayout`,
`onIntersecting`) become pure functions from state to state paired with the
list of effects they emit, in the order the source emits them.  Work the
source schedules with a zero-delay timeout (old-model disposal) is returned
in a separate `deferred` list: it runs strictly after the update pass.
-/

namespace Monaco

/-- Pixel dimension of a layout box (`monaco.editor.IDimension`). -/
structure Dimension where
  width : Nat
  height : Nat
deriving DecidableEq, Repr

/-- Cursor position inside the editor (`monaco.Position`). -/
structure Position where
  lineNumber : Nat
  column : Nat
deriving DecidableEq, Repr

/-- Model URIs: either a plain file URI built from the editor id
(`monaco.Uri.file(this.props.id)`, used on mount) or the composite cell URI
used on language change. -/
inductive Uri where
  | file (id : String)
  | cell (contentRef : String) (id : String) (language : String)
deriving DecidableEq, Repr

namespace DocumentUri

/-- Modelled from the spec: `DocumentUri.createCellUri` lives in the module
`documentUri` which is not among the sources at hand; the spec describes the
model identity as the composite of (content-reference, cell-id, language), so
the URI is modelled as exactly that triple. -/
def createCellUri (contentRef : String) (id : String) (language : String) : Uri :=
  Uri.cell contentRef id language

end DocumentUri

/-- A Monaco text model: the text buffer addressed by a URI, carrying the
language it was created with. -/
structure Model where
  uri : Uri
  languageId : String
  value : String
deriving DecidableEq, Repr

/-- `monaco.editor.getModel(uri)`: look a model up by URI in the global
registry (the registry is carried in the component state for modelling). -/
def lookupModel (models : List Model) (uri : Uri) : Option Model :=
  models.find? (fun m => decide (m.uri = uri))

/-- The live native editor handle: its current text (`getValue`), focus state
(`hasWidgetFocus`), bound model (`getModel`), cursor (`getPosition`), measured
content height (`getContentHeight`) and the client box of its container DOM
node (`getContainerDomNode().clientWidth/clientHeight`). -/
structure Editor where
  value : String
  hasWidgetFocus : Bool
  model : Option Model
  position : Option Position
  contentHeight : Nat
  clientWidth : Nat
  clientHeight : Nat
deriving DecidableEq, Repr

/-- The `IMonacoProps` configuration snapshot.  Optional callback props are
modelled by their presence (a `Bool`): the coordinator only ever tests them
for truthiness before invoking them. -/
structure Props where
  id : String
  contentRef : String
  value : String
  language : String
  editorFocused : Bool
  enableCompletion : Bool
  shouldRegisterDefaultCompletion : Bool
  /-- presence of the `onRegisterCompletionProvider` callback -/
  onRegisterCompletionProvider : Bool
  enableFormatting : Bool
  /-- presence of the `onRegisterDocumentFormattingEditProvider` callback -/
  onRegisterDocumentFormattingEditProvider : Bool
  batchLayoutChanges : Bool
  skipLayoutWhenNotInViewport : Bool
  skipLayoutWhenHidden : Bool
  /-- `autoFitContentHeight?: boolean`, read with a `?? true` default -/
  autoFitContentHeight : Option Bool
  /-- `maxContentHeight?: number`, tested for truthiness (0 is falsy) -/
  maxContentHeight : Option Nat
  initialDimension : Option Dimension
  modelUri : Option Uri
  /-- presence of the `cursorPositionHandler` callback -/
  cursorPositionHandler : Bool
  /-- presence of the `commandHandler` callback -/
  commandHandler : Bool
  /-- presence of the `onDidCreateEditor` callback -/
  onDidCreateEditor : Bool
  /-- presence of the `shortcutsHandler` callback -/
  shortcutsHandler : Bool
  /-- presence of the `shortcutsOptions` value -/
  shortcutsOptions : Bool
  /-- presence of the `onCursorPositionChange` callback -/
  onCursorPositionChange : Bool
deriving DecidableEq, Repr

/-- The mutable instance state of one `MonacoEditor` component: its props
snapshot, the owned editor handle, the container DOM facts the code queries
(`editorContainerRef.current`, its `offsetParent` and `offsetHeight`), the
viewport-gating fields, listener registrations, and the global model
registry. -/
structure MonacoState where
  props : Props
  editor : Option Editor
  /-- `editorContainerRef.current` is non-null -/
  hasContainer : Bool
  /-- the container's `offsetParent` is non-null -/
  containerOffsetParent : Bool
  containerOffsetHeight : Nat
  isInViewport : Bool
  /-- `intersectObservation` is set -/
  intersectObserving : Bool
  deferredLayoutRequest : Bool
  deferredLayoutDimension : Option Dimension
  /-- `mouseMoveListener` is set -/
  mouseMoveListener : Bool
  /-- `cursorPositionListener` is set -/
  cursorListener : Bool
  /-- the global monaco model registry -/
  models : List Model
deriving DecidableEq, Repr

/-- One imperative call into the native layer (or a host callback), recorded
in the order the component issues it. -/
inductive Effect where
  | setValue (value : String)
  | createModel (value : String) (language : String) (uri : Uri)
  | setEOLLF (uri : Uri)
  | updateModelOptions
  | setModel (uri : Uri)
  | disposeModel (uri : Uri)
  | disposeEditor
  | layout (d : Dimension)
  | scheduleBatchLayout (d : Option Dimension)
  | focus
  | setPosition (p : Position)
  | updateOptions
  | callCursorPositionHandler
  | callCommandHandler
  | callOnRegisterCompletionProvider (language : String)
  | registerDefaultCompletion (language : String)
  | callOnRegisterFormatting (language : String)
  | setChannels
  | observeIntersect
  | unobserveIntersect
  | observeResize
  | unobserveResize
  | subscribeMouseMove
  | disposeMouseMove
  | logError
  | callOnDidCreateEditor
  | callShortcutsHandler
  | createEditor
  | callOnCursorPositionChange
  | subscribeCursorSelection
  | addUndoRedoListeners
  | subscribeContentSizeChange
  | subscribeModelContent
  | subscribeFocus
  | subscribeBlur
deriving DecidableEq, Repr

/-- `readEditorDomSize()`: the client box of the editor's container DOM node,
or `undefined` when there is no editor/container. -/
def readEditorDomSize (s : MonacoState) : Option Dimension :=
  match s.editor with
  | none => none
  | some e => some { width := e.clientWidth, height := e.clientHeight }

/-- `getLayoutDimension()`: measure the container client box; `undefined` when
zero-sized; with `autoFitContentHeight ?? true`, override the height with the
editor's (truthy) measured content height; clamp to a truthy
`maxContentHeight`. -/
def getLayoutDimension (s : MonacoState) : Option Dimension :=
  match readEditorDomSize s with
  | none => none
  | some dim0 =>
    if dim0.width = 0 ∨ dim0.height = 0 then none
    else
      let dim1 :=
        if s.props.autoFitContentHeight.getD true then
          match s.editor with
          | some e => if e.contentHeight ≠ 0 then { dim0 with height := e.contentHeight } else dim0
          | none => dim0
        else dim0
      let dim2 :=
        match s.props.maxContentHeight with
        | some mx => if mx ≠ 0 then { dim1 with height := min dim1.height mx } else dim1
        | none => dim1
      some dim2

/-- `isContainerHidden()`: `!container?.offsetParent || !container?.offsetHeight`
(a missing container counts as hidden). -/
def isContainerHidden (s : MonacoState) : Bool :=
  !(s.hasContainer && s.containerOffsetParent) || s.containerOffsetHeight == 0

/-- `shouldLayout()`: when `skipLayoutWhenHidden` is set, only lay out a
non-hidden container. -/
def shouldLayout (s : MonacoState) : Bool :=
  if s.props.skipLayoutWhenHidden then !(isContainerHidden s) else true

/-- `layout(dim)`: write the layout to the DOM (no-op without an editor). -/
def layoutCall (s : MonacoState) (d : Dimension) : List Effect :=
  match s.editor with
  | none => []
  | some _ => [Effect.layout d]

/-- `requestLayout(dimension?)`: no-op without an editor; stash and defer while
not in the viewport; drop when hidden-skipping applies; enqueue into the batch
scheduler when batching; otherwise resolve a dimension (explicit or measured)
and apply it. -/
def requestLayout (s : MonacoState) (dimension : Option Dimension) :
    MonacoState × List Effect :=
  match s.editor with
  | none => (s, [])
  | some _ =>
    if !s.isInViewport then
      ({ s with deferredLayoutDimension := dimension, deferredLayoutRequest := true }, [])
    else if !(shouldLayout s) then
      (s, [])
    else if s.props.batchLayoutChanges then
      (s, [Effect.scheduleBatchLayout dimension])
    else
      match dimension with
      | some d => (s, layoutCall s d)
      | none =>
        match getLayoutDimension s with
        | some d => (s, layoutCall s d)
        | none => (s, [])

/-- `onIntersecting(isIntersecting)`: edge-triggered viewport transition; on
becoming visible, flush a deferred layout request with its stashed
dimension. -/
def onIntersecting (s : MonacoState) (isIntersecting : Bool) :
    MonacoState × List Effect :=
  if s.isInViewport == isIntersecting then (s, [])
  else
    let s1 := { s with isInViewport := isIntersecting }
    if s1.isInViewport && s1.deferredLayoutRequest then
      requestLayout { s1 with deferredLayoutRequest := false } s1.deferredLayoutDimension
    else (s1, [])

/-- `updateIntersectRegistration()`: opt-in registration of the intersection
observation; when the flag is off, cease observation and assume the editor is
in the viewport. -/
def updateIntersectRegistration (s : MonacoState) : MonacoState × List Effect :=
  if s.props.skipLayoutWhenNotInViewport then
    if s.hasContainer && !s.intersectObserving then
      ({ s with isInViewport := false, intersectObserving := true }, [Effect.observeIntersect])
    else (s, [])
  else
    if s.intersectObserving then
      ({ s with intersectObserving := false, isInViewport := true }, [Effect.unobserveIntersect])
    else
      ({ s with isInViewport := true }, [])

/-- Count the effects in a trace satisfying a predicate. -/
def countEffects (q : Effect → Bool) (l : List Effect) : Nat :=
  l.countP q

/-- Predicate picking out native `layout` calls. -/
def isLayoutEffect : Effect → Bool
  | Effect.layout _ => true
  | _ => false

/-- Predicate picking out `setValue` pushes. -/
def isSetValueEffect : Effect → Bool
  | Effect.setValue _ => true
  | _ => false

/-- Predicate picking out model creations. -/
def isCreateModelEffect : Effect → Bool
  | Effect.createModel _ _ _ => true
  | _ => false

/-- Predicate picking out model disposals. -/
def isDisposeModelEffect : Effect → Bool
  | Effect.disposeModel _ => true
  | _ => false

/-- Predicate picking out `setModel` installs. -/
def isSetModelEffect : Effect → Bool
  | Effect.setModel _ => true
  | _ => false

/-- Predicate picking out programmatic `focus` calls. -/
def isFocusEffect : Effect → Bool
  | Effect.focus => true
  | _ => false

/-- Predicate picking out error-log effects. -/
def isLogErrorEffect : Effect → Bool
  | Effect.logError => true
  | _ => false

/-- `registerCompletionProvider()`: when completion is enabled and a (truthy)
language is set, prefer the caller-supplied callback over the default
kernel-based provider. -/
def registerCompletionProvider (p : Props) : List Effect :=
  if p.enableCompletion && p.language != "" then
    if p.onRegisterCompletionProvider then
      [Effect.callOnRegisterCompletionProvider p.language]
    else if p.shouldRegisterDefaultCompletion then
      [Effect.registerDefaultCompletion p.language]
    else []
  else []

/-- `registerDocumentFormatter()`: invoke the caller's formatting registration
callback when formatting is enabled and a language is set. -/
def registerDocumentFormatter (p : Props) : List Effect :=
  if p.enableFormatting && p.language != "" then
    if p.onRegisterDocumentFormattingEditProvider then
      [Effect.callOnRegisterFormatting p.language]
    else []
  else []

/-- `registerCursorListener()`: forward the current selection and subscribe to
cursor-selection changes once. -/
def registerCursorListener (s : MonacoState) : MonacoState × List Effect :=
  match s.editor with
  | none => (s, [])
  | some _ =>
    if s.props.onCursorPositionChange then
      if !s.cursorListener then
        ({ s with cursorListener := true },
         [Effect.callOnCursorPositionChange, Effect.subscribeCursorSelection])
      else (s, [Effect.callOnCursorPositionChange])
    else (s, [])

/-- The model-swap block of `componentDidUpdate` (the body guarded by
`model && language && model.getLanguageId() !== language`): when no model
exists at the new cell URI, save the cursor, create the new model, force its
EOL to LF, install it, schedule disposal of the old model in a separate tick
(the third component of the result), restore the cursor, and re-apply focus;
when a model already exists at the new URI, the whole body is skipped. -/
def applyModelForLanguageChange (s : MonacoState) :
    MonacoState × List Effect × List Effect :=
  match s.editor with
  | none => (s, [], [])
  | some e =>
    match e.model with
    | none => (s, [], [])
    | some model =>
      if s.props.language ≠ "" ∧ model.languageId ≠ s.props.language then
        let newUri := DocumentUri.createCellUri s.props.contentRef s.props.id s.props.language
        match lookupModel s.models newUri with
        | some _ => (s, [], [])
        | none =>
          let position := e.position
          let newModel : Model :=
            { uri := newUri, languageId := s.props.language, value := s.props.value }
          let effs0 := [Effect.createModel s.props.value s.props.language newUri,
                        Effect.setEOLLF newUri, Effect.setModel newUri]
          let e1 : Editor := { e with model := some newModel, value := newModel.value }
          let deferred := [Effect.disposeModel model.uri]
          let effs1 := match position with
            | some pos => effs0 ++ [Effect.setPosition pos]
            | none => effs0
          let r :=
            if s.props.editorFocused && !e1.hasWidgetFocus then
              (({ e1 with hasWidgetFocus := true } : Editor), effs1 ++ [Effect.focus])
            else (e1, effs1)
          ({ s with editor := some r.1, models := s.models ++ [newModel] }, r.2, deferred)
      else (s, [], [])

/-- The value push of `componentDidUpdate`: when the value prop changed from
the previous props and the live editor's current text also differs from the
new value, push it with `setValue`. -/
def pushValueIfChanged (prevProps : Props) (s : MonacoState) :
    MonacoState × List Effect :=
  match s.editor with
  | some e =>
    if prevProps.value ≠ s.props.value ∧ e.value ≠ s.props.value then
      ({ s with editor := some { e with value := s.props.value } },
       [Effect.setValue s.props.value])
    else (s, [])
  | none => (s, [])

/-- The focus re-application at the end of `componentDidUpdate`: focus the
editor when requested and it does not already hold widget focus. -/
def applyFocusOnUpdate (s : MonacoState) : MonacoState × List Effect :=
  match s.editor with
  | some e =>
    if s.props.editorFocused && !e.hasWidgetFocus then
      ({ s with editor := some { e with hasWidgetFocus := true } }, [Effect.focus])
    else (s, [])
  | none => (s, [])

/-- Result of one `componentDidUpdate` pass: the new instance state, the
effects issued during the pass, and the work scheduled via a zero-delay
timeout to run strictly after the pass (old-model disposal). -/
structure UpdateResult where
  state : MonacoState
  effects : List Effect
  deferred : List Effect
deriving DecidableEq, Repr

/-- `componentDidUpdate(prevProps)`: re-register intersection observation,
invoke the cursor-position and command handlers, push the value when it
changed against both the previous props and the live text, re-register
completion, swap the model on language change, update editor options, and —
unless the container is detached from layout flow (`offsetParent` null) —
re-apply focus and request a layout. -/
def componentDidUpdate (prevProps : Props) (s : MonacoState) : UpdateResult :=
  match s.editor with
  | none => ⟨s, [], []⟩
  | some _ =>
    let r1 := updateIntersectRegistration s
    let s1 := r1.1
    let e1 := r1.2
    let e2 := if s1.props.cursorPositionHandler then [Effect.callCursorPositionHandler] else []
    let e3 := if s1.props.commandHandler then [Effect.callCommandHandler] else []
    let r4 := pushValueIfChanged prevProps s1
    let s2 := r4.1
    let e4 := r4.2
    let e5 := [Effect.setChannels]
    let e6 := registerCompletionProvider s2.props
    let r7 := applyModelForLanguageChange s2
    let s3 := r7.1
    let e7 := r7.2.1
    let deferred := r7.2.2
    let e8 := [Effect.updateOptions]
    if !(s3.hasContainer && s3.containerOffsetParent) then
      ⟨s3, e1 ++ e2 ++ e3 ++ e4 ++ e5 ++ e6 ++ e7 ++ e8, deferred⟩
    else
      let r9 := applyFocusOnUpdate s3
      let s4 := r9.1
      let e9 := r9.2
      let r10 := requestLayout s4 none
      ⟨r10.1, e1 ++ e2 ++ e3 ++ e4 ++ e5 ++ e6 ++ e7 ++ e8 ++ e9 ++ r10.2, deferred⟩

/-- The instance state after the intersection-registration step of one
`componentDidUpdate` pass. -/
def updateStage1 (s : MonacoState) : MonacoState := (updateIntersectRegistration s).1

/-- The instance state after the value-push step of one `componentDidUpdate`
pass. -/
def updateStage2 (prevProps : Props) (s : MonacoState) : MonacoState :=
  (pushValueIfChanged prevProps (updateStage1 s)).1

/-- The instance state after the model-swap step of one `componentDidUpdate`
pass. -/
def updateStage3 (prevProps : Props) (s : MonacoState) : MonacoState :=
  (applyModelForLanguageChange (updateStage2 prevProps s)).1

/-- `componentDidMount()`: resolve or create the model at the mount URI, force
its EOL to LF, apply model text options, create the editor (`created`
supplies the environment-determined facts of the freshly created native
editor: focus state, client box, content height, cursor), run the creation
callbacks, toggle active-state options, apply focus and the cursor listener
when requested, subscribe to native events, issue the initial layout request,
and register the mouse-move and resize observers. -/
def componentDidMount (s : MonacoState) (created : Editor) : MonacoState × List Effect :=
  if !s.hasContainer then (s, [])
  else
    let r1 := updateIntersectRegistration s
    let s1 := r1.1
    let e1 := r1.2
    let e2 := registerCompletionProvider s1.props
    let e3 := registerDocumentFormatter s1.props
    let uri := s1.props.modelUri.getD (Uri.file s1.props.id)
    let r4 :=
      match lookupModel s1.models uri with
      | some m => (m, s1.models, ([] : List Effect))
      | none =>
        let m : Model := { uri := uri, languageId := s1.props.language, value := s1.props.value }
        (m, s1.models ++ [m], [Effect.createModel s1.props.value s1.props.language uri])
    let model := r4.1
    let s2 := { s1 with models := r4.2.1 }
    let e4 := r4.2.2
    let e5 := [Effect.setEOLLF uri, Effect.updateModelOptions]
    let editor : Editor := { created with model := some model, value := model.value }
    let s3 := { s2 with editor := some editor }
    let e6 := [Effect.createEditor]
    let e7 := if s3.props.onDidCreateEditor then [Effect.callOnDidCreateEditor] else []
    let e8 := if s3.props.shortcutsHandler && s3.props.shortcutsOptions then
                [Effect.callShortcutsHandler] else []
    let e9 := if s3.props.commandHandler then [Effect.callCommandHandler] else []
    let e10 := [Effect.updateOptions]
    let r11 :=
      if s3.props.editorFocused then
        let rf :=
          if !editor.hasWidgetFocus then
            ({ s3 with editor := some { editor with hasWidgetFocus := true } }, [Effect.focus])
          else (s3, ([] : List Effect))
        let rc := registerCursorListener rf.1
        (rc.1, rf.2 ++ rc.2)
      else (s3, ([] : List Effect))
    let s4 := r11.1
    let e11 := r11.2
    let e12 := [Effect.addUndoRedoListeners, Effect.subscribeContentSizeChange,
                Effect.subscribeModelContent, Effect.subscribeFocus, Effect.subscribeBlur]
    let r13 := requestLayout s4 s4.props.initialDimension
    let s5 := r13.1
    let e13 := r13.2
    let e14 := if s5.props.cursorPositionHandler then [Effect.callCursorPositionHandler] else []
    let s6 := { s5 with mouseMoveListener := true }
    let e15 := [Effect.subscribeMouseMove]
    let e16 := [Effect.observeResize]
    (s6, e1 ++ e2 ++ e3 ++ e4 ++ e5 ++ e6 ++ e7 ++ e8 ++ e9 ++ e10 ++ e11 ++ e12
          ++ e13 ++ e14 ++ e15 ++ e16)

/-- Environment facts for teardown: whether the native `dispose()` calls
throw. -/
structure UnmountEnv where
  modelDisposeThrows : Bool
  editorDisposeThrows : Bool
deriving DecidableEq, Repr

/-- The `try` body of `componentWillUnmount`: unobserve resize and
intersection, dispose the model, dispose the editor, clear the handle.
`Except.error` models a thrown disposal error: the state and effects
accumulated up to the throw are returned and the remaining statements —
including `this.editor = undefined` — do not run. -/
def disposeOnUnmount (s : MonacoState) (env : UnmountEnv) (e : Editor) :
    Except (MonacoState × List Effect) (MonacoState × List Effect) :=
  let effs1 := if s.hasContainer then [Effect.unobserveResize] else []
  let r2 :=
    if s.intersectObserving then
      ({ s with intersectObserving := false }, effs1 ++ [Effect.unobserveIntersect])
    else (s, effs1)
  let s2 := r2.1
  let effs2 := r2.2
  match e.model with
  | some m =>
    if env.modelDisposeThrows then Except.error (s2, effs2)
    else
      let effs3 := effs2 ++ [Effect.disposeModel m.uri]
      if env.editorDisposeThrows then Except.error (s2, effs3)
      else Except.ok ({ s2 with editor := none }, effs3 ++ [Effect.disposeEditor])
  | none =>
    if env.editorDisposeThrows then Except.error (s2, effs2)
    else Except.ok ({ s2 with editor := none }, effs2 ++ [Effect.disposeEditor])

/-- `componentWillUnmount()`: run the guarded teardown, log (never rethrow) a
disposal error, then dispose the mouse-move listener unconditionally. -/
def componentWillUnmount (s : MonacoState) (env : UnmountEnv) :
    MonacoState × List Effect :=
  let r :=
    match s.editor with
    | none => (s, ([] : List Effect))
    | some e =>
      match disposeOnUnmount s env e with
      | Except.ok res => res
      | Except.error res => (res.1, res.2 ++ [Effect.logError])
  if r.1.mouseMoveListener then (r.1, r.2 ++ [Effect.disposeMouseMove]) else r

/-- Bounding client rect of a DOM element (`getBoundingClientRect`). -/
structure Rect where
  left : Int
  top : Int
  right : Int
  bottom : Int
deriving DecidableEq, Repr

/-- A `.parameter-hints-widget` element: its class list, whether its inline
style already sets visibility to hidden, and its bounding rect. -/
structure Widget where
  classes : List String
  visibilityHidden : Bool
  rect : Rect
deriving DecidableEq, Repr

/-- One `div.monaco-container` element and the parameter-hint widgets inside
it; `isOwn` marks the container that is the parent element of
`this.editorContainerRef.current`. -/
structure Container where
  isOwn : Bool
  widgets : List Widget
deriving DecidableEq, Repr

/-- The live element set the dismissal algorithm re-queries on every
invocation. -/
abbrev Document := List Container

/-- `document.querySelector(".parameter-hints-widget")`: the first
parameter-hint widget in document order, visible or not. -/
def queryParameterWidget (doc : Document) : Option Widget :=
  (doc.map Container.widgets).flatten.head?

/-- The fixed padding around the popup hit box. -/
def HOVER_BOUND_DEFAULT_PADDING : Int := 5

/-- `coordsInsideElement(element, x, y, padding)`: whether (x, y) lies within
the element's bounding rect expanded by `padding` on every side (inclusive);
false for a missing element. -/
def coordsInsideElement (element : Option Rect) (x y : Int) (padding : Int) : Bool :=
  match element with
  | none => false
  | some r =>
    decide (r.left - padding ≤ x) && decide (x ≤ r.right + padding) &&
    decide (r.top - padding ≤ y) && decide (y ≤ r.bottom + padding)

/-- `hideWidgets(widgetParent, [".parameter-hints-widget"])`: strip the
`visible` class from every parameter-hint widget under the parent and force
its inline visibility to hidden. -/
def hideWidgets (c : Container) : Container :=
  { c with widgets := c.widgets.map (fun w =>
      { w with classes := w.classes.filter (fun cls => cls != "visible"),
               visibilityHidden := true }) }

/-- `hideAllOtherParameterWidgets()`: hide the parameter-hint widgets of every
`div.monaco-container` other than this editor's own; no-op when this
instance has no container. -/
def hideAllOtherParameterWidgets (hasContainer : Bool) (doc : Document) : Document :=
  if !hasContainer then doc
  else doc.map (fun c => if c.isOwn then c else hideWidgets c)

/-- `handleCoordsOutsideWidgetActiveRegion(x, y)` (rate-limited pointer-move
handler): locate the first parameter-hint widget in the document; when the
pointer lies outside its padded bounds, hide all other editors' widgets;
otherwise leave the document untouched. -/
def handleCoordsOutsideWidgetActiveRegion (hasContainer : Bool) (doc : Document)
    (x y : Int) : Document :=
  match queryParameterWidget doc with
  | none => doc
  | some w =>
    if !(coordsInsideElement (some w.rect) x y HOVER_BOUND_DEFAULT_PADDING) then
      hideAllOtherParameterWidgets hasContainer doc
    else doc

/-- The layout-dimension resolution as the configuration documents it: the
`maxContentHeight` prop is declared "this only works when
`autoFitContentHeight` is true", so the clamp is applied inside the auto-fit
branch only.  Compare with `getLayoutDimension`, translated from the code,
which applies the clamp unconditionally. -/
def getLayoutDimensionPerDoc (s : MonacoState) : Option Dimension :=
  match readEditorDomSize s with
  | none => none
  | some dim0 =>
    if dim0.width = 0 ∨ dim0.height = 0 then none
    else
      let dim1 :=
        if s.props.autoFitContentHeight.getD true then
          let dimA :=
            match s.editor with
            | some e => if e.contentHeight ≠ 0 then { dim0 with height := e.contentHeight }
                        else dim0
            | none => dim0
          match s.props.maxContentHeight with
          | some mx => if mx ≠ 0 then { dimA with height := min dimA.height mx } else dimA
          | none => dimA
        else dim0
      some dim1

/-- Concrete configuration snapshot used by the witness theorems. -/
def exProps : Props :=
  { id := "cell1"
    contentRef := "nb1"
    value := "print(1)"
    language := "python"
    editorFocused := true
    enableCompletion := true
    shouldRegisterDefaultCompletion := false
    onRegisterCompletionProvider := false
    enableFormatting := false
    onRegisterDocumentFormattingEditProvider := false
    batchLayoutChanges := false
    skipLayoutWhenNotInViewport := false
    skipLayoutWhenHidden := false
    autoFitContentHeight := none
    maxContentHeight := none
    initialDimension := none
    modelUri := none
    cursorPositionHandler := false
    commandHandler := false
    onDidCreateEditor := false
    shortcutsHandler := false
    shortcutsOptions := false
    onCursorPositionChange := true }

/-- Concrete model bound at mount time in the witness scenarios. -/
def exModel : Model :=
  { uri := Uri.file "cell1", languageId := "python", value := "print(1)" }

/-- Concrete live editor used by the witness theorems. -/
def exEditor : Editor :=
  { value := "print(1)"
    hasWidgetFocus := false
    model := some exModel
    position := some { lineNumber := 1, column := 1 }
    contentHeight := 42
    clientWidth := 100
    clientHeight := 50 }

/-- Concrete mounted instance state used by the witness theorems. -/
def exState : MonacoState :=
  { props := exProps
    editor := some exEditor
    hasContainer := true
    containerOffsetParent := true
    containerOffsetHeight := 20
    isInViewport := true
    intersectObserving := false
    deferredLayoutRequest := false
    deferredLayoutDimension := none
    mouseMoveListener := true
    cursorListener := false
    models := [exModel] }

/-- Whether the `componentWillUnmount` try-body throws for the given editor
and environment: model disposal throws (when a model is bound), or editor
disposal throws (only reached when model disposal succeeded). -/
def unmountThrew (e : Editor) (env : UnmountEnv) : Bool :=
  (e.model.isSome && env.modelDisposeThrows) || env.editorDisposeThrows

/-- Instance state with hidden-skipping enabled, a hidden container
(`offsetParent` null), and the viewport flag false. -/
def exStateHidden : MonacoState :=
  { exState with
    props := { exProps with skipLayoutWhenHidden := true }
    containerOffsetParent := false
    isInViewport := false }

/-- Configuration changing the language to markdown. -/
def exPropsMarkdown : Props := { exProps with language := "markdown" }

/-- State after a props update that changed the language, with no model yet at
the new identity. -/
def exStateLangChange : MonacoState := { exState with props := exPropsMarkdown }

/-- A model already registered at the markdown cell identity. -/
def mdModel : Model :=
  { uri := Uri.cell "nb1" "cell1" "markdown", languageId := "markdown", value := "x" }

/-- State after a language-changing props update where a model already exists
at the new identity (focus not requested, so the live editor is otherwise
untouched by the update). -/
def exStateLangExists : MonacoState :=
  { exState with
    props := { exPropsMarkdown with editorFocused := false }
    models := [exModel, mdModel] }

/-- State with auto-fit disabled and a max content height configured. -/
def exStateNoFit : MonacoState :=
  { exState with
    props := { exProps with autoFitContentHeight := some false, maxContentHeight := some 10 } }

/-- Bounding rect of the visible popup in the dismissal witness. -/
def exRect : Rect := { left := 0, top := 0, right := 100, bottom := 20 }

/-- The visible parameter-hint popup of this editor's own container. -/
def exVisibleWidget : Widget :=
  { classes := ["editor-widget", "parameter-hints-widget", "visible"]
    visibilityHidden := false
    rect := exRect }

/-- A parameter-hint popup belonging to another editor's container. -/
def exOtherWidget : Widget :=
  { classes := ["editor-widget", "parameter-hints-widget", "visible"]
    visibilityHidden := false
    rect := { left := 200, top := 200, right := 300, bottom := 240 } }

/-- A two-editor document: our own container holding the visible popup and a
sibling container holding another popup. -/
def exDoc : Document :=
  [ { isOwn := true, widgets := [exVisibleWidget] },
    { isOwn := false, widgets := [exOtherWidget] } ]

/-! ### Helper lemmas -/

theorem updateIntersectRegistration_editor (s : MonacoState) :
    (updateIntersectRegistration s).1.editor = s.editor := by
  unfold updateIntersectRegistration
  split
  · split <;> rfl
  · split <;> rfl

theorem updateIntersectRegistration_props (s : MonacoState) :
    (updateIntersectRegistration s).1.props = s.props := by
  unfold updateIntersectRegistration
  split
  · split <;> rfl
  · split <;> rfl

theorem updateIntersectRegistration_models (s : MonacoState) :
    (updateIntersectRegistration s).1.models = s.models := by
  unfold updateIntersectRegistration
  split
  · split <;> rfl
  · split <;> rfl

theorem updateIntersectRegistration_hasContainer (s : MonacoState) :
    (updateIntersectRegistration s).1.hasContainer = s.hasContainer := by
  unfold updateIntersectRegistration
  split
  · split <;> rfl
  · split <;> rfl

theorem updateIntersectRegistration_containerOffsetParent (s : MonacoState) :
    (updateIntersectRegistration s).1.containerOffsetParent = s.containerOffsetParent := by
  unfold updateIntersectRegistration
  split
  · split <;> rfl
  · split <;> rfl

theorem updateIntersectRegistration_effects (s : MonacoState) :
    (updateIntersectRegistration s).2 = [] ∨
    (updateIntersectRegistration s).2 = [Effect.observeIntersect] ∨
    (updateIntersectRegistration s).2 = [Effect.unobserveIntersect] := by
  unfold updateIntersectRegistration
  split
  · split
    · right; left; rfl
    · left; rfl
  · split
    · right; right; rfl
    · left; rfl

theorem requestLayout_effects (s : MonacoState) (d : Option Dimension) :
    (requestLayout s d).2 = [] ∨
    (∃ d0, (requestLayout s d).2 = [Effect.scheduleBatchLayout d0]) ∨
    (∃ d0, (requestLayout s d).2 = [Effect.layout d0]) := by
  unfold requestLayout
  split
  · left; rfl
  · split
    · left; rfl
    · split
      · left; rfl
      · split
        · right; left; exact ⟨d, rfl⟩
        · split
          · unfold layoutCall
            split
            · left; rfl
            · right; right; exact ⟨_, rfl⟩
          · split
            · unfold layoutCall
              split
              · left; rfl
              · right; right; exact ⟨_, rfl⟩
            · left; rfl

theorem registerCompletionProvider_effects (p : Props) :
    registerCompletionProvider p = [] ∨
    registerCompletionProvider p = [Effect.callOnRegisterCompletionProvider p.language] ∨
    registerCompletionProvider p = [Effect.registerDefaultCompletion p.language] := by
  unfold registerCompletionProvider
  split
  · split
    · right; left; rfl
    · split
      · right; right; rfl
      · left; rfl
  · left; rfl

theorem countEffects_updateIntersectRegistration (s : MonacoState) (q : Effect → Bool)
    (h1 : q Effect.observeIntersect = false) (h2 : q Effect.unobserveIntersect = false) :
    countEffects q (updateIntersectRegistration s).2 = 0 := by
  rcases updateIntersectRegistration_effects s with h | h | h <;>
    simp [countEffects, h, h1, h2]

theorem countEffects_requestLayout (s : MonacoState) (d : Option Dimension)
    (q : Effect → Bool)
    (h1 : ∀ d0, q (Effect.layout d0) = false)
    (h2 : ∀ d0, q (Effect.scheduleBatchLayout d0) = false) :
    countEffects q (requestLayout s d).2 = 0 := by
  rcases requestLayout_effects s d with h | ⟨d0, h⟩ | ⟨d0, h⟩ <;>
    simp [countEffects, h, h1, h2]

theorem countEffects_registerCompletionProvider (p : Props) (q : Effect → Bool)
    (h1 : ∀ l, q (Effect.callOnRegisterCompletionProvider l) = false)
    (h2 : ∀ l, q (Effect.registerDefaultCompletion l) = false) :
    countEffects q (registerCompletionProvider p) = 0 := by
  rcases registerCompletionProvider_effects p with h | h | h <;>
    simp [countEffects, h, h1, h2]

theorem countEffects_if_singleton (c : Prop) [Decidable c] (x : Effect) (q : Effect → Bool)
    (h : q x = false) : countEffects q (if c then [x] else []) = 0 := by
  split <;> simp [countEffects, h]

theorem requestLayout_state_editor (s : MonacoState) (d : Option Dimension) :
    (requestLayout s d).1.editor = s.editor := by
  unfold requestLayout
  split
  · rfl
  · split
    · rfl
    · split
      · rfl
      · split
        · rfl
        · split
          · rfl
          · split <;> rfl

theorem pushValueIfChanged_props (prevProps : Props) (s : MonacoState) :
    (pushValueIfChanged prevProps s).1.props = s.props := by
  unfold pushValueIfChanged
  split
  · split <;> rfl
  · rfl

theorem pushValueIfChanged_models (prevProps : Props) (s : MonacoState) :
    (pushValueIfChanged prevProps s).1.models = s.models := by
  unfold pushValueIfChanged
  split
  · split <;> rfl
  · rfl

theorem pushValueIfChanged_hasContainer (prevProps : Props) (s : MonacoState) :
    (pushValueIfChanged prevProps s).1.hasContainer = s.hasContainer := by
  unfold pushValueIfChanged
  split
  · split <;> rfl
  · rfl

theorem pushValueIfChanged_containerOffsetParent (prevProps : Props) (s : MonacoState) :
    (pushValueIfChanged prevProps s).1.containerOffsetParent = s.containerOffsetParent := by
  unfold pushValueIfChanged
  split
  · split <;> rfl
  · rfl

theorem pushValueIfChanged_editor (prevProps : Props) (s : MonacoState) (e : Editor)
    (he : s.editor = some e) :
    ∃ e2, (pushValueIfChanged prevProps s).1.editor = some e2 ∧
      e2.model = e.model ∧ e2.position = e.position ∧
      e2.hasWidgetFocus = e.hasWidgetFocus := by
  unfold pushValueIfChanged
  simp only [he]
  split
  · exact ⟨_, rfl, rfl, rfl, rfl⟩
  · exact ⟨e, he, rfl, rfl, rfl⟩

theorem pushValueIfChanged_effects (prevProps : Props) (s : MonacoState) :
    (pushValueIfChanged prevProps s).2 = [] ∨
    ∃ v, (pushValueIfChanged prevProps s).2 = [Effect.setValue v] := by
  unfold pushValueIfChanged
  split
  · split
    · right; exact ⟨_, rfl⟩
    · left; rfl
  · left; rfl

theorem pushValueIfChanged_setValueCount (prevProps : Props) (s : MonacoState) (e : Editor)
    (he : s.editor = some e) :
    countEffects isSetValueEffect (pushValueIfChanged prevProps s).2 =
      if prevProps.value ≠ s.props.value ∧ e.value ≠ s.props.value then 1 else 0 := by
  unfold pushValueIfChanged
  simp only [he]
  split
  · simp [countEffects, isSetValueEffect]
  · simp [countEffects]

theorem countEffects_pushValueIfChanged (prevProps : Props) (s : MonacoState)
    (q : Effect → Bool) (h : ∀ v, q (Effect.setValue v) = false) :
    countEffects q (pushValueIfChanged prevProps s).2 = 0 := by
  rcases pushValueIfChanged_effects prevProps s with hp | ⟨v, hp⟩ <;>
    simp [countEffects, hp, h]

theorem applyFocusOnUpdate_effects (s : MonacoState) :
    (applyFocusOnUpdate s).2 = [] ∨ (applyFocusOnUpdate s).2 = [Effect.focus] := by
  unfold applyFocusOnUpdate
  split
  · split
    · right; rfl
    · left; rfl
  · left; rfl

theorem countEffects_applyFocusOnUpdate (s : MonacoState) (q : Effect → Bool)
    (h : q Effect.focus = false) :
    countEffects q (applyFocusOnUpdate s).2 = 0 := by
  rcases applyFocusOnUpdate_effects s with hp | hp <;> simp [countEffects, hp, h]

theorem applyFocusOnUpdate_noFocus (s : MonacoState)
    (h : s.props.editorFocused = false ∨
      ∀ e, s.editor = some e → e.hasWidgetFocus = true) :
    (applyFocusOnUpdate s).2 = [] := by
  unfold applyFocusOnUpdate
  split
  · rename_i e heq
    rcases h with h | h
    · simp [h]
    · simp [h e heq]
  · rfl

theorem applyFocusOnUpdate_editorModel (s : MonacoState) (e : Editor)
    (he : s.editor = some e) :
    ∃ e2, (applyFocusOnUpdate s).1.editor = some e2 ∧ e2.model = e.model := by
  unfold applyFocusOnUpdate
  simp only [he]
  split
  · exact ⟨_, rfl, rfl⟩
  · exact ⟨e, he, rfl⟩

theorem registerDocumentFormatter_effects (p : Props) :
    registerDocumentFormatter p = [] ∨
    registerDocumentFormatter p = [Effect.callOnRegisterFormatting p.language] := by
  unfold registerDocumentFormatter
  split
  · split
    · right; rfl
    · left; rfl
  · left; rfl

theorem registerCursorListener_effects (s : MonacoState) :
    (registerCursorListener s).2 = [] ∨
    (registerCursorListener s).2 =
      [Effect.callOnCursorPositionChange, Effect.subscribeCursorSelection] ∨
    (registerCursorListener s).2 = [Effect.callOnCursorPositionChange] := by
  unfold registerCursorListener
  split
  · left; rfl
  · split
    · split
      · right; left; rfl
      · right; right; rfl
    · left; rfl

theorem applyModelForLanguageChange_props (s : MonacoState) :
    (applyModelForLanguageChange s).1.props = s.props := by
  unfold applyModelForLanguageChange
  split
  · rfl
  · split
    · rfl
    · split
      · dsimp only
        split
        · rfl
        · rfl
      · rfl

theorem applyModelForLanguageChange_hasContainer (s : MonacoState) :
    (applyModelForLanguageChange s).1.hasContainer = s.hasContainer := by
  unfold applyModelForLanguageChange
  split
  · rfl
  · split
    · rfl
    · split
      · dsimp only
        split
        · rfl
        · rfl
      · rfl

theorem applyModelForLanguageChange_containerOffsetParent (s : MonacoState) :
    (applyModelForLanguageChange s).1.containerOffsetParent = s.containerOffsetParent := by
  unfold applyModelForLanguageChange
  split
  · rfl
  · split
    · rfl
    · split
      · dsimp only
        split
        · rfl
        · rfl
      · rfl

theorem applyModelForLanguageChange_deferred (s : MonacoState) :
    (applyModelForLanguageChange s).2.2 = [] ∨
    ∃ u, (applyModelForLanguageChange s).2.2 = [Effect.disposeModel u] := by
  unfold applyModelForLanguageChange
  split
  · left; rfl
  · split
    · left; rfl
    · split
      · dsimp only
        split
        · left; rfl
        · right; exact ⟨_, rfl⟩
      · left; rfl

theorem countEffects_applyModelForLanguageChange (s : MonacoState) (q : Effect → Bool)
    (h1 : ∀ v l u, q (Effect.createModel v l u) = false)
    (h2 : ∀ u, q (Effect.setEOLLF u) = false)
    (h3 : ∀ u, q (Effect.setModel u) = false)
    (h4 : ∀ p, q (Effect.setPosition p) = false)
    (h5 : q Effect.focus = false) :
    countEffects q (applyModelForLanguageChange s).2.1 = 0 := by
  unfold applyModelForLanguageChange
  split
  · simp [countEffects]
  · split
    · simp [countEffects]
    · split
      · dsimp only
        split
        · simp [countEffects]
        · dsimp only
          split <;> split <;> simp [countEffects, h1, h2, h3, h4, h5]
      · simp [countEffects]

theorem countEffects_append (q : Effect → Bool) (a b : List Effect) :
    countEffects q (a ++ b) = countEffects q a + countEffects q b := by
  simp [countEffects, List.countP_append]

theorem countEffects_nil (q : Effect → Bool) : countEffects q [] = 0 := rfl

theorem countEffects_singleton (q : Effect → Bool) (x : Effect) :
    countEffects q [x] = if q x then 1 else 0 := by
  simp [countEffects, List.countP_cons, List.countP_nil]

theorem countEffects_cons (q : Effect → Bool) (x : Effect) (l : List Effect) :
    countEffects q (x :: l) = countEffects q l + (if q x then 1 else 0) := by
  simp [countEffects, List.countP_cons]

theorem applyModelForLanguageChange_existsCase (s : MonacoState) (e : Editor)
    (model m' : Model) (he : s.editor = some e) (hm : e.model = some model)
    (hl : s.props.language ≠ "") (hne : model.languageId ≠ s.props.language)
    (hsome : lookupModel s.models
      (DocumentUri.createCellUri s.props.contentRef s.props.id s.props.language) =
      some m') :
    applyModelForLanguageChange s = (s, [], []) := by
  unfold applyModelForLanguageChange
  simp only [he, hm]
  rw [if_pos ⟨hl, hne⟩]
  rw [hsome]

theorem applyModelForLanguageChange_createCase (s : MonacoState) (e : Editor)
    (model : Model) (he : s.editor = some e) (hm : e.model = some model)
    (hl : s.props.language ≠ "") (hne : model.languageId ≠ s.props.language)
    (hnone : lookupModel s.models
      (DocumentUri.createCellUri s.props.contentRef s.props.id s.props.language) =
      none) :
    countEffects isCreateModelEffect (applyModelForLanguageChange s).2.1 = 1 ∧
    countEffects isDisposeModelEffect (applyModelForLanguageChange s).2.1 = 0 ∧
    countEffects isSetModelEffect (applyModelForLanguageChange s).2.1 = 1 ∧
    (applyModelForLanguageChange s).2.2 = [Effect.disposeModel model.uri] ∧
    (∀ p, e.position = some p →
      Effect.setPosition p ∈ (applyModelForLanguageChange s).2.1) ∧
    Effect.setEOLLF
      (DocumentUri.createCellUri s.props.contentRef s.props.id s.props.language) ∈
      (applyModelForLanguageChange s).2.1 ∧
    Effect.setModel
      (DocumentUri.createCellUri s.props.contentRef s.props.id s.props.language) ∈
      (applyModelForLanguageChange s).2.1 ∧
    (∃ e2, (applyModelForLanguageChange s).1.editor = some e2 ∧
      e2.model = some
        { uri := DocumentUri.createCellUri s.props.contentRef s.props.id s.props.language,
          languageId := s.props.language,
          value := s.props.value }) := by
  unfold applyModelForLanguageChange
  simp only [he, hm]
  rw [if_pos ⟨hl, hne⟩]
  rw [hnone]
  rcases hp : e.position with _ | pos <;>
    by_cases hf : (s.props.editorFocused && !e.hasWidgetFocus) = true <;>
      simp [hp, hf, countEffects, isCreateModelEffect, isDisposeModelEffect,
        isSetModelEffect]

theorem applyModelForLanguageChange_editorSome (s : MonacoState) (e : Editor)
    (he : s.editor = some e) :
    ∃ e2, (applyModelForLanguageChange s).1.editor = some e2 := by
  unfold applyModelForLanguageChange
  simp only [he]
  split
  · exact ⟨e, he⟩
  · split
    · split
      · exact ⟨e, he⟩
      · exact ⟨_, rfl⟩
    · exact ⟨e, he⟩

theorem applyModelForLanguageChange_focusPreserved (s : MonacoState) (e : Editor)
    (he : s.editor = some e) (hw : e.hasWidgetFocus = true) :
    ∃ e2, (applyModelForLanguageChange s).1.editor = some e2 ∧
      e2.hasWidgetFocus = true := by
  unfold applyModelForLanguageChange
  simp only [he]
  split
  · exact ⟨e, he, hw⟩
  · split
    · split
      · exact ⟨e, he, hw⟩
      · simp [hw]
    · exact ⟨e, he, hw⟩

theorem applyModelForLanguageChange_noFocusEffects (s : MonacoState)
    (h : ∀ e, s.editor = some e → (s.props.editorFocused && !e.hasWidgetFocus) = false) :
    countEffects isFocusEffect (applyModelForLanguageChange s).2.1 = 0 := by
  unfold applyModelForLanguageChange
  split
  · simp [countEffects]
  · rename_i e heq
    split
    · simp [countEffects]
    · split
      · dsimp only
        split
        · simp [countEffects]
        · dsimp only
          rcases hp : e.position with _ | pos <;>
            simp [hp, countEffects, isFocusEffect, h e heq]
      · simp [countEffects]

theorem updateStage1_editor (s : MonacoState) : (updateStage1 s).editor = s.editor :=
  updateIntersectRegistration_editor s

theorem updateStage1_props (s : MonacoState) : (updateStage1 s).props = s.props :=
  updateIntersectRegistration_props s

theorem updateStage2_props (prevProps : Props) (s : MonacoState) :
    (updateStage2 prevProps s).props = s.props := by
  unfold updateStage2
  rw [pushValueIfChanged_props, updateStage1_props]

theorem updateStage2_models (prevProps : Props) (s : MonacoState) :
    (updateStage2 prevProps s).models = s.models := by
  unfold updateStage2
  rw [pushValueIfChanged_models]
  exact updateIntersectRegistration_models s

theorem updateStage2_editor (prevProps : Props) (s : MonacoState) (e : Editor)
    (he : s.editor = some e) :
    ∃ e2, (updateStage2 prevProps s).editor = some e2 ∧
      e2.model = e.model ∧ e2.position = e.position ∧
      e2.hasWidgetFocus = e.hasWidgetFocus := by
  unfold updateStage2
  exact pushValueIfChanged_editor prevProps (updateStage1 s) e
    (by rw [updateStage1_editor]; exact he)

theorem updateStage3_props (prevProps : Props) (s : MonacoState) :
    (updateStage3 prevProps s).props = s.props := by
  unfold updateStage3
  rw [applyModelForLanguageChange_props, updateStage2_props]

/-- The spine of one `componentDidUpdate` pass with a live editor: its effect
trace is the concatenation of the phase traces in source order (with the
focus/layout tail `post` present exactly when the container has an
`offsetParent`), its deferred work is the model-swap phase's deferred work,
and its final state is reached through the staged pipeline. -/
theorem componentDidUpdate_shape (prevProps : Props) (s : MonacoState) (e : Editor)
    (he : s.editor = some e) :
    ∃ post : List Effect,
      (componentDidUpdate prevProps s).effects =
        (updateIntersectRegistration s).2 ++
        (if (updateStage1 s).props.cursorPositionHandler then
          [Effect.callCursorPositionHandler] else []) ++
        (if (updateStage1 s).props.commandHandler then [Effect.callCommandHandler] else []) ++
        (pushValueIfChanged prevProps (updateStage1 s)).2 ++
        [Effect.setChannels] ++
        registerCompletionProvider (updateStage2 prevProps s).props ++
        (applyModelForLanguageChange (updateStage2 prevProps s)).2.1 ++
        [Effect.updateOptions] ++ post ∧
      ((post = [] ∧ (componentDidUpdate prevProps s).state = updateStage3 prevProps s) ∨
       (post = (applyFocusOnUpdate (updateStage3 prevProps s)).2 ++
          (requestLayout (applyFocusOnUpdate (updateStage3 prevProps s)).1 none).2 ∧
        (componentDidUpdate prevProps s).state =
          (requestLayout (applyFocusOnUpdate (updateStage3 prevProps s)).1 none).1)) ∧
      (componentDidUpdate prevProps s).deferred =
        (applyModelForLanguageChange (updateStage2 prevProps s)).2.2 := by
  unfold componentDidUpdate updateStage3 updateStage2 updateStage1
  simp only [he]
  split
  · exact ⟨[], by simp, Or.inl ⟨rfl, rfl⟩, rfl⟩
  · exact ⟨_, by simp, Or.inr ⟨rfl, rfl⟩, rfl⟩

theorem countEffects_registerDocumentFormatter (p : Props) (q : Effect → Bool)
    (h : ∀ l, q (Effect.callOnRegisterFormatting l) = false) :
    countEffects q (registerDocumentFormatter p) = 0 := by
  rcases registerDocumentFormatter_effects p with hp | hp <;> simp [countEffects, hp, h]

theorem countEffects_registerCursorListener (s : MonacoState) (q : Effect → Bool)
    (h1 : q Effect.callOnCursorPositionChange = false)
    (h2 : q Effect.subscribeCursorSelection = false) :
    countEffects q (registerCursorListener s).2 = 0 := by
  rcases registerCursorListener_effects s with hp | hp | hp <;>
    simp [countEffects, hp, h1, h2]

theorem countEffects_updateBackground (prevProps : Props) (s : MonacoState)
    (q : Effect → Bool)
    (hObs : q Effect.observeIntersect = false)
    (hUnobs : q Effect.unobserveIntersect = false)
    (hCur : q Effect.callCursorPositionHandler = false)
    (hCmd : q Effect.callCommandHandler = false)
    (hSet : ∀ v, q (Effect.setValue v) = false)
    (hChan : q Effect.setChannels = false)
    (hReg : ∀ l, q (Effect.callOnRegisterCompletionProvider l) = false)
    (hDefc : ∀ l, q (Effect.registerDefaultCompletion l) = false)
    (hUpd : q Effect.updateOptions = false)
    (hFoc : q Effect.focus = false)
    (hLay : ∀ d, q (Effect.layout d) = false)
    (hSch : ∀ d, q (Effect.scheduleBatchLayout d) = false)
    (e : Editor) (he : s.editor = some e) :
    countEffects q (componentDidUpdate prevProps s).effects =
      countEffects q (applyModelForLanguageChange (updateStage2 prevProps s)).2.1 := by
  obtain ⟨post, heff, hdisj, hdef⟩ := componentDidUpdate_shape prevProps s e he
  have hpost : countEffects q post = 0 := by
    rcases hdisj with ⟨hp, -⟩ | ⟨hp, -⟩
    · simp [hp, countEffects]
    · rw [hp, countEffects_append, countEffects_applyFocusOnUpdate _ q hFoc,
        countEffects_requestLayout _ _ q hLay hSch]
  rw [heff, countEffects_append, countEffects_append, countEffects_append,
    countEffects_append, countEffects_append, countEffects_append,
    countEffects_append, countEffects_append,
    countEffects_updateIntersectRegistration _ q hObs hUnobs,
    countEffects_if_singleton _ Effect.callCursorPositionHandler q hCur,
    countEffects_if_singleton _ Effect.callCommandHandler q hCmd,
    countEffects_pushValueIfChanged _ _ q hSet,
    countEffects_singleton, countEffects_singleton,
    countEffects_registerCompletionProvider _ q hReg hDefc,
    hpost, hChan, hUpd]
  simp

theorem updateFinalEditorModel (prevProps : Props) (s : MonacoState) (e e3 : Editor)
    (he : s.editor = some e)
    (h3 : (updateStage3 prevProps s).editor = some e3) :
    ∃ e4, (componentDidUpdate prevProps s).state.editor = some e4 ∧
      e4.model = e3.model := by
  obtain ⟨post, heff, hdisj, hdef⟩ := componentDidUpdate_shape prevProps s e he
  rcases hdisj with ⟨-, hstate⟩ | ⟨-, hstate⟩
  · exact ⟨e3, by rw [hstate]; exact h3, rfl⟩
  · obtain ⟨e4, h4, hm4⟩ :=
      applyFocusOnUpdate_editorModel (updateStage3 prevProps s) e3 h3
    exact ⟨e4, by rw [hstate, requestLayout_state_editor]; exact h4, hm4⟩

theorem countEffects_componentDidMount_focus (sM : MonacoState) (created : Editor) :
    countEffects isFocusEffect (componentDidMount sM created).2 =
      (if sM.hasContainer && sM.props.editorFocused && !created.hasWidgetFocus
       then 1 else 0) := by
  unfold componentDidMount
  by_cases hc : sM.hasContainer = true
  · rw [if_neg (by simp [hc])]
    simp only [updateIntersectRegistration_props, updateIntersectRegistration_models]
    rcases hlk : lookupModel sM.models (sM.props.modelUri.getD (Uri.file sM.props.id))
      with _ | m <;>
      by_cases hf : sM.props.editorFocused = true <;>
        by_cases hw : created.hasWidgetFocus = true <;>
          simp [hlk, hc, hf, hw, countEffects_append, countEffects_singleton,
            countEffects_cons, countEffects_nil, countEffects_if_singleton,
            fun st => countEffects_updateIntersectRegistration st isFocusEffect rfl rfl,
            fun p => countEffects_registerCompletionProvider p isFocusEffect
              (fun l => rfl) (fun l => rfl),
            fun p => countEffects_registerDocumentFormatter p isFocusEffect (fun l => rfl),
            fun st => countEffects_registerCursorListener st isFocusEffect rfl rfl,
            fun st d => countEffects_requestLayout st d isFocusEffect
              (fun d0 => rfl) (fun d0 => rfl),
            isFocusEffect]
  · rw [if_pos (by simp [hc])]
    simp [countEffects_nil, hc]

theorem countEffects_componentDidUpdate_noFocusFlag (prevProps : Props) (sU : MonacoState) (eU : Editor)
    (heU : sU.editor = some eU) (hf : sU.props.editorFocused = false) :
    countEffects isFocusEffect (componentDidUpdate prevProps sU).effects = 0 := by
  obtain ⟨post, heff, hdisj, hdef⟩ := componentDidUpdate_shape prevProps sU eU heU
  have happly : countEffects isFocusEffect
      (applyModelForLanguageChange (updateStage2 prevProps sU)).2.1 = 0 := by
    apply applyModelForLanguageChange_noFocusEffects
    intro e' he'
    rw [updateStage2_props, hf]
    simp
  have hpost : countEffects isFocusEffect post = 0 := by
    rcases hdisj with ⟨hp, -⟩ | ⟨hp, -⟩
    · simp [hp, countEffects_nil]
    · rw [hp, countEffects_append,
        countEffects_requestLayout _ _ isFocusEffect (fun d0 => rfl) (fun d0 => rfl),
        applyFocusOnUpdate_noFocus _ (Or.inl (by rw [updateStage3_props]; exact hf))]
      simp [countEffects_nil]
  rw [heff, countEffects_append, countEffects_append, countEffects_append,
    countEffects_append, countEffects_append, countEffects_append,
    countEffects_append, countEffects_append,
    countEffects_updateIntersectRegistration _ isFocusEffect rfl rfl,
    countEffects_if_singleton _ Effect.callCursorPositionHandler isFocusEffect rfl,
    countEffects_if_singleton _ Effect.callCommandHandler isFocusEffect rfl,
    countEffects_pushValueIfChanged _ _ isFocusEffect (fun v => rfl),
    countEffects_singleton, countEffects_singleton,
    countEffects_registerCompletionProvider _ isFocusEffect (fun l => rfl) (fun l => rfl),
    happly, hpost]
  simp [isFocusEffect]

theorem countEffects_componentDidUpdate_widgetFocused (prevProps : Props) (sU : MonacoState) (eU : Editor)
    (heU : sU.editor = some eU) (hw : eU.hasWidgetFocus = true) :
    countEffects isFocusEffect (componentDidUpdate prevProps sU).effects = 0 := by
  obtain ⟨e2, he2, hm2, hp2, hw2⟩ := updateStage2_editor prevProps sU eU heU
  have hw2' : e2.hasWidgetFocus = true := by rw [hw2]; exact hw
  obtain ⟨post, heff, hdisj, hdef⟩ := componentDidUpdate_shape prevProps sU eU heU
  have happly : countEffects isFocusEffect
      (applyModelForLanguageChange (updateStage2 prevProps sU)).2.1 = 0 := by
    apply applyModelForLanguageChange_noFocusEffects
    intro e' he'
    rw [he2] at he'
    injection he' with hh
    rw [← hh, hw2']
    simp
  obtain ⟨e3, he3, hw3⟩ :=
    applyModelForLanguageChange_focusPreserved (updateStage2 prevProps sU) e2 he2 hw2'
  have hpost : countEffects isFocusEffect post = 0 := by
    rcases hdisj with ⟨hp, -⟩ | ⟨hp, -⟩
    · simp [hp, countEffects_nil]
    · rw [hp, countEffects_append,
        countEffects_requestLayout _ _ isFocusEffect (fun d0 => rfl) (fun d0 => rfl),
        applyFocusOnUpdate_noFocus _ (Or.inr (fun e' he' => by
          unfold updateStage3 at he'
          rw [he3] at he'
          injection he' with hh
          rw [← hh]
          exact hw3))]
      simp [countEffects_nil]
  rw [heff, countEffects_append, countEffects_append, countEffects_append,
    countEffects_append, countEffects_append, countEffects_append,
    countEffects_append, countEffects_append,
    countEffects_updateIntersectRegistration _ isFocusEffect rfl rfl,
    countEffects_if_singleton _ Effect.callCursorPositionHandler isFocusEffect rfl,
    countEffects_if_singleton _ Effect.callCommandHandler isFocusEffect rfl,
    countEffects_pushValueIfChanged _ _ isFocusEffect (fun v => rfl),
    countEffects_singleton, countEffects_singleton,
    countEffects_registerCompletionProvider _ isFocusEffect (fun l => rfl) (fun l => rfl),
    happly, hpost]
  simp [isFocusEffect]

/-! ### Claim theorems -/

/-- C1: during one configuration update with a live editor, exactly one value
push (`setValue`) occurs iff the new value differs from the previous props
value and from the live editor's current text; if either condition fails,
zero pushes occur during the update, and the update's deferred work never
contains a push. -/
theorem componentDidUpdate_valuePush (prevProps : Props) (s : MonacoState) (e : Editor)
    (he : s.editor = some e) :
    countEffects isSetValueEffect (componentDidUpdate prevProps s).effects =
      (if prevProps.value ≠ s.props.value ∧ e.value ≠ s.props.value then 1 else 0) ∧
    countEffects isSetValueEffect (componentDidUpdate prevProps s).deferred = 0 := by
  obtain ⟨post, heff, hdisj, hdef⟩ := componentDidUpdate_shape prevProps s e he
  have hpost : countEffects isSetValueEffect post = 0 := by
    rcases hdisj with ⟨hp, -⟩ | ⟨hp, -⟩
    · simp [hp, countEffects]
    · rw [hp, countEffects_append,
        countEffects_applyFocusOnUpdate _ isSetValueEffect rfl,
        countEffects_requestLayout _ _ isSetValueEffect (fun d0 => rfl) (fun d0 => rfl)]
  refine ⟨?_, ?_⟩
  · rw [heff]
    have he1 : (updateStage1 s).editor = some e := by
      rw [updateStage1_editor]; exact he
    have hpv := pushValueIfChanged_setValueCount prevProps (updateStage1 s) e he1
    rw [updateStage1_props] at hpv
    rw [countEffects_append, countEffects_append, countEffects_append,
      countEffects_append, countEffects_append, countEffects_append,
      countEffects_append, countEffects_append,
      countEffects_updateIntersectRegistration _ isSetValueEffect rfl rfl,
      countEffects_if_singleton _ Effect.callCursorPositionHandler isSetValueEffect rfl,
      countEffects_if_singleton _ Effect.callCommandHandler isSetValueEffect rfl,
      hpv,
      countEffects_singleton, countEffects_singleton,
      countEffects_registerCompletionProvider _ isSetValueEffect
        (fun l => rfl) (fun l => rfl),
      countEffects_applyModelForLanguageChange _ isSetValueEffect
        (fun v l u => rfl) (fun u => rfl) (fun u => rfl) (fun p => rfl) rfl,
      hpost]
    simp [isSetValueEffect]
  · rw [hdef]
    rcases applyModelForLanguageChange_deferred (updateStage2 prevProps s) with h | ⟨u, h⟩ <;>
      simp [h, countEffects, isSetValueEffect]

/-- Witness for C1: updating the concrete mounted state with a changed value
while the live text still holds the old value performs exactly one push, and
an update with the value unchanged performs none. -/
theorem componentDidUpdate_valuePush_witness :
    countEffects isSetValueEffect
      (componentDidUpdate { exProps with value := "old" }
        { exState with props := { exProps with value := "new" } }).effects = 1 ∧
    countEffects isSetValueEffect (componentDidUpdate exProps exState).effects = 0 := by
  constructor
  · have h := (componentDidUpdate_valuePush { exProps with value := "old" }
      { exState with props := { exProps with value := "new" } } exEditor rfl).1
    rw [h]
    decide
  · have h := (componentDidUpdate_valuePush exProps exState exEditor rfl).1
    rw [h]
    decide

/-- C2: for an update whose non-empty language prop differs from the live
model's language: when a model already exists at the new composite identity
(content-reference, cell-id, language), zero new models are created and no
disposal is scheduled; otherwise exactly one model is created, zero
disposals execute within the update pass itself, exactly one disposal of the
old model is scheduled as deferred work running strictly after the pass, and
when the editor held a cursor position before the swap a restore of exactly
that position is issued. -/
theorem componentDidUpdate_languageSwap (prevProps : Props) (s : MonacoState)
    (e : Editor) (model : Model) (he : s.editor = some e) (hm : e.model = some model)
    (hl : s.props.language ≠ "") (hne : model.languageId ≠ s.props.language) :
    ((lookupModel s.models
        (DocumentUri.createCellUri s.props.contentRef s.props.id
          s.props.language)).isSome →
      countEffects isCreateModelEffect (componentDidUpdate prevProps s).effects = 0 ∧
      (componentDidUpdate prevProps s).deferred = []) ∧
    (lookupModel s.models
        (DocumentUri.createCellUri s.props.contentRef s.props.id s.props.language) =
        none →
      countEffects isCreateModelEffect (componentDidUpdate prevProps s).effects = 1 ∧
      countEffects isDisposeModelEffect (componentDidUpdate prevProps s).effects = 0 ∧
      (componentDidUpdate prevProps s).deferred = [Effect.disposeModel model.uri] ∧
      (∀ p, e.position = some p →
        Effect.setPosition p ∈ (componentDidUpdate prevProps s).effects)) := by
  obtain ⟨e2, he2, hm2, hp2, hw2⟩ := updateStage2_editor prevProps s e he
  have hm2' : e2.model = some model := by rw [hm2]; exact hm
  have hl2 : (updateStage2 prevProps s).props.language ≠ "" := by
    rw [updateStage2_props]; exact hl
  have hne2 : model.languageId ≠ (updateStage2 prevProps s).props.language := by
    rw [updateStage2_props]; exact hne
  have hcreate := countEffects_updateBackground prevProps s isCreateModelEffect
    rfl rfl rfl rfl (fun v => rfl) rfl (fun l => rfl) (fun l => rfl) rfl rfl
    (fun d => rfl) (fun d => rfl) e he
  have hdispose := countEffects_updateBackground prevProps s isDisposeModelEffect
    rfl rfl rfl rfl (fun v => rfl) rfl (fun l => rfl) (fun l => rfl) rfl rfl
    (fun d => rfl) (fun d => rfl) e he
  obtain ⟨post, heff, hdisj, hdef⟩ := componentDidUpdate_shape prevProps s e he
  constructor
  · intro hs
    obtain ⟨m', hm'⟩ := Option.isSome_iff_exists.mp hs
    have happly := applyModelForLanguageChange_existsCase (updateStage2 prevProps s)
      e2 model m' he2 hm2' hl2 hne2
      (by rw [updateStage2_models, updateStage2_props]; exact hm')
    refine ⟨?_, ?_⟩
    · rw [hcreate, happly]
      exact countEffects_nil _
    · rw [hdef, happly]
  · intro hnone
    obtain ⟨hc1, hc2, hc3, hc4, hc5, hc6, hc7, hc8⟩ :=
      applyModelForLanguageChange_createCase (updateStage2 prevProps s)
        e2 model he2 hm2' hl2 hne2
        (by rw [updateStage2_models, updateStage2_props]; exact hnone)
    refine ⟨?_, ?_, ?_, ?_⟩
    · rw [hcreate]
      exact hc1
    · rw [hdispose]
      exact hc2
    · rw [hdef]
      exact hc4
    · intro p hp
      have hp' : e2.position = some p := by rw [hp2]; exact hp
      have hmem := hc5 p hp'
      rw [heff]
      simp only [List.mem_append]
      tauto

/-- Witness for C2 at the concrete language-change state (python to markdown,
no model yet at the markdown identity): one model created, zero disposals in
the pass, one deferred disposal of the old model, and the prior cursor
position restored. -/
theorem componentDidUpdate_languageSwap_witness :
    countEffects isCreateModelEffect
      (componentDidUpdate exProps exStateLangChange).effects = 1 ∧
    countEffects isDisposeModelEffect
      (componentDidUpdate exProps exStateLangChange).effects = 0 ∧
    (componentDidUpdate exProps exStateLangChange).deferred =
      [Effect.disposeModel (Uri.file "cell1")] ∧
    Effect.setPosition { lineNumber := 1, column := 1 } ∈
      (componentDidUpdate exProps exStateLangChange).effects := by
  have h := (componentDidUpdate_languageSwap exProps exStateLangChange exEditor exModel
    rfl rfl (by decide) (by decide)).2 (by decide)
  exact ⟨h.1, h.2.1, h.2.2.1, h.2.2.2 { lineNumber := 1, column := 1 } rfl⟩

/-- C3 (amended): on an update whose non-empty language prop differs from the
live model's language: when no model exists at the new composite identity, a
model is created, its line-ending convention is forced to line-feed, and it
is installed on the live editor — which ends up bound to a model carrying the
new language at the new identity; when a model already exists at the new
identity, however, the whole swap body is skipped: no install occurs and the
editor remains bound to its old model (the looked-up model is not
installed). -/
theorem componentDidUpdate_modelInstall (prevProps : Props) (s : MonacoState)
    (e : Editor) (model : Model) (he : s.editor = some e) (hm : e.model = some model)
    (hl : s.props.language ≠ "") (hne : model.languageId ≠ s.props.language) :
    (lookupModel s.models
        (DocumentUri.createCellUri s.props.contentRef s.props.id s.props.language) =
        none →
      Effect.setEOLLF
        (DocumentUri.createCellUri s.props.contentRef s.props.id s.props.language) ∈
        (componentDidUpdate prevProps s).effects ∧
      Effect.setModel
        (DocumentUri.createCellUri s.props.contentRef s.props.id s.props.language) ∈
        (componentDidUpdate prevProps s).effects ∧
      (∃ e4 m4, (componentDidUpdate prevProps s).state.editor = some e4 ∧
        e4.model = some m4 ∧ m4.languageId = s.props.language ∧
        m4.uri = DocumentUri.createCellUri s.props.contentRef s.props.id
          s.props.language)) ∧
    ((lookupModel s.models
        (DocumentUri.createCellUri s.props.contentRef s.props.id
          s.props.language)).isSome →
      countEffects isSetModelEffect (componentDidUpdate prevProps s).effects = 0 ∧
      (∃ e4, (componentDidUpdate prevProps s).state.editor = some e4 ∧
        e4.model = e.model)) := by
  obtain ⟨e2, he2, hm2, hp2, hw2⟩ := updateStage2_editor prevProps s e he
  have hm2' : e2.model = some model := by rw [hm2]; exact hm
  have hl2 : (updateStage2 prevProps s).props.language ≠ "" := by
    rw [updateStage2_props]; exact hl
  have hne2 : model.languageId ≠ (updateStage2 prevProps s).props.language := by
    rw [updateStage2_props]; exact hne
  have hsetmodel := countEffects_updateBackground prevProps s isSetModelEffect
    rfl rfl rfl rfl (fun v => rfl) rfl (fun l => rfl) (fun l => rfl) rfl rfl
    (fun d => rfl) (fun d => rfl) e he
  constructor
  · intro hnone
    obtain ⟨hc1, hc2, hc3, hc4, hc5, hc6, hc7, hc8⟩ :=
      applyModelForLanguageChange_createCase (updateStage2 prevProps s)
        e2 model he2 hm2' hl2 hne2
        (by rw [updateStage2_models, updateStage2_props]; exact hnone)
    obtain ⟨post, heff, hdisj, hdef⟩ := componentDidUpdate_shape prevProps s e he
    rw [updateStage2_props] at hc6 hc7 hc8
    refine ⟨?_, ?_, ?_⟩
    · rw [heff]
      simp only [List.mem_append]
      tauto
    · rw [heff]
      simp only [List.mem_append]
      tauto
    · obtain ⟨e3, he3, hm3⟩ := hc8
      obtain ⟨e4, he4, hm4⟩ := updateFinalEditorModel prevProps s e e3 he
        (by rw [updateStage3]; exact he3)
      refine ⟨e4,
        { uri := DocumentUri.createCellUri s.props.contentRef s.props.id s.props.language,
          languageId := s.props.language, value := s.props.value },
        he4, ?_, rfl, rfl⟩
      rw [hm4, hm3]
  · intro hs
    obtain ⟨m', hm'⟩ := Option.isSome_iff_exists.mp hs
    have happly := applyModelForLanguageChange_existsCase (updateStage2 prevProps s)
      e2 model m' he2 hm2' hl2 hne2
      (by rw [updateStage2_models, updateStage2_props]; exact hm')
    refine ⟨?_, ?_⟩
    · rw [hsetmodel, happly]
      exact countEffects_nil _
    · obtain ⟨e4, he4, hm4⟩ := updateFinalEditorModel prevProps s e e2 he
        (by rw [updateStage3, happly]; exact he2)
      exact ⟨e4, he4, by rw [hm4, hm2]⟩

/-- Witness for C3 (amended) in the create case: the markdown model is EOL
normalised and installed, and the final editor state is bound to a model
carrying the markdown language at the markdown cell identity. -/
theorem componentDidUpdate_modelInstall_witness :
    Effect.setEOLLF (Uri.cell "nb1" "cell1" "markdown") ∈
      (componentDidUpdate exProps exStateLangChange).effects ∧
    Effect.setModel (Uri.cell "nb1" "cell1" "markdown") ∈
      (componentDidUpdate exProps exStateLangChange).effects := by
  have h := (componentDidUpdate_modelInstall exProps exStateLangChange exEditor exModel
    rfl rfl (by decide) (by decide)).1 (by decide)
  exact ⟨h.1, h.2.1⟩

/-- C3 counterexample: at a language-changing update where a model already
exists at the new identity, the update performs no install at all — zero
`setModel` calls — and the editor remains bound to the old python model,
contradicting the claim that the looked-up model is installed on the editor
in the already-exists case. -/
theorem componentDidUpdate_noInstallOnExistingModel :
    exStateLangExists.editor = some exEditor ∧
    exEditor.model = some exModel ∧
    exModel.languageId ≠ exStateLangExists.props.language ∧
    exStateLangExists.props.language ≠ "" ∧
    (lookupModel exStateLangExists.models
      (DocumentUri.createCellUri exStateLangExists.props.contentRef
        exStateLangExists.props.id exStateLangExists.props.language)).isSome = true ∧
    countEffects isSetModelEffect
      (componentDidUpdate exProps exStateLangExists).effects = 0 ∧
    (componentDidUpdate exProps exStateLangExists).state.editor = some exEditor := by
  decide


/-- C4: a layout request issued while the instance is marked not-intersecting
produces zero native layout calls immediately — the request and its dimension
are stashed, overwriting any prior pending dimension; on the transition of
the intersection state from false to true, the deferred request is flushed
exactly once, as a single re-issued `requestLayout` carrying the last stashed
dimension with the deferred flag cleared (and, on the immediate non-batched
path, that flush performs exactly one native layout call with the stashed
dimension); reporting an intersection state equal to the current one changes
nothing. -/
theorem requestLayout_viewportGate (s : MonacoState) (d : Option Dimension)
    (b : Bool) (e : Editor) (he : s.editor = some e) :
    (s.isInViewport = false →
      requestLayout s d =
        ({ s with deferredLayoutDimension := d, deferredLayoutRequest := true }, [])) ∧
    (s.isInViewport = false → s.deferredLayoutRequest = true →
      onIntersecting s true =
        requestLayout { s with isInViewport := true, deferredLayoutRequest := false }
          s.deferredLayoutDimension) ∧
    (∀ d0, s.isInViewport = false → s.deferredLayoutRequest = true →
      s.deferredLayoutDimension = some d0 →
      s.props.batchLayoutChanges = false → shouldLayout s = true →
      onIntersecting s true =
        ({ s with isInViewport := true, deferredLayoutRequest := false },
         [Effect.layout d0])) ∧
    (s.isInViewport = b → onIntersecting s b = (s, [])) := by
  refine ⟨?_, ?_, ?_, ?_⟩
  · intro hv
    simp [requestLayout, he, hv]
  · intro hv hd
    simp [onIntersecting, hv, hd]
  · intro d0 hv hd hdim hb hsl
    simp [onIntersecting, hv, hd, hdim, requestLayout, he, hb, shouldLayout,
      isContainerHidden, layoutCall]
    intro hskip
    rcases (show s.props.skipLayoutWhenHidden = false ∨
        (s.hasContainer = true ∧ s.containerOffsetParent = true) ∧
          ¬s.containerOffsetHeight = 0 by
      simpa [shouldLayout, isContainerHidden] using hsl) with h | h
    · simp [hskip] at h
    · exact h
  · intro hb
    simp [onIntersecting, hb]

/-- Witness for C4 at a concrete state: a request while not intersecting is
stashed with no effects, and the false-to-true transition flushes it as one
native layout call with the stashed dimension. -/
theorem requestLayout_viewportGate_witness :
    (requestLayout { exState with isInViewport := false }
        (some { width := 10, height := 20 }) =
      ({ exState with isInViewport := false,
                      deferredLayoutDimension := some { width := 10, height := 20 },
                      deferredLayoutRequest := true }, [])) ∧
    (onIntersecting
        { exState with isInViewport := false, deferredLayoutRequest := true,
                       deferredLayoutDimension := some { width := 10, height := 20 } }
        true =
      ({ exState with isInViewport := true, deferredLayoutRequest := false,
                      deferredLayoutDimension := some { width := 10, height := 20 } },
       [Effect.layout { width := 10, height := 20 }])) := by
  constructor
  · exact (requestLayout_viewportGate { exState with isInViewport := false }
      (some { width := 10, height := 20 }) false exEditor rfl).1 rfl
  · exact (requestLayout_viewportGate
      { exState with isInViewport := false, deferredLayoutRequest := true,
                     deferredLayoutDimension := some { width := 10, height := 20 } }
      none false exEditor rfl).2.2.1 { width := 10, height := 20 }
      rfl rfl rfl rfl (by decide)

theorem requestLayout_hidden_noEffects (s : MonacoState) (d : Option Dimension)
    (hs : s.props.skipLayoutWhenHidden = true) (hh : isContainerHidden s = true) :
    (requestLayout s d).2 = [] := by
  have hsl : shouldLayout s = false := by simp [shouldLayout, hs, hh]
  unfold requestLayout
  split
  · rfl
  · split
    · rfl
    · split
      · rfl
      · simp_all

/-- C5 (amended): with skip-layout-when-hidden enabled and the container
hidden, every layout request produces zero native layout calls — indeed zero
effects of any kind — regardless of the intersection state, and a flush on
the not-intersecting-to-intersecting transition while still hidden also
produces none; however the disposition of the request depends on the
intersection state: while intersecting the hidden request is dropped (state
unchanged), while not intersecting it is deferred by the viewport gate (the
deferred flag is set and the dimension stashed). -/
theorem requestLayout_hiddenSkip (s : MonacoState) (d : Option Dimension)
    (hs : s.props.skipLayoutWhenHidden = true) (hh : isContainerHidden s = true) :
    (requestLayout s d).2 = [] ∧
    (s.isInViewport = true → (requestLayout s d).1 = s) ∧
    (∀ e, s.editor = some e → s.isInViewport = false →
      (requestLayout s d).1 =
        { s with deferredLayoutDimension := d, deferredLayoutRequest := true }) ∧
    (onIntersecting s true).2 = [] := by
  have hsl : shouldLayout s = false := by simp [shouldLayout, hs, hh]
  refine ⟨requestLayout_hidden_noEffects s d hs hh, ?_, ?_, ?_⟩
  · intro hv
    unfold requestLayout
    split
    · rfl
    · simp [hv, hsl]
  · intro e he hv
    simp [requestLayout, he, hv]
  · unfold onIntersecting
    split
    · rfl
    · dsimp only
      split
      · exact requestLayout_hidden_noEffects _ _ hs hh
      · rfl

/-- Witness for C5 (amended) at a concrete hidden state while intersecting:
the request is dropped with no effects and no state change. -/
theorem requestLayout_hiddenSkip_witness :
    (requestLayout { exStateHidden with isInViewport := true }
      (some { width := 30, height := 40 })).2 = [] ∧
    (requestLayout { exStateHidden with isInViewport := true }
      (some { width := 30, height := 40 })).1 =
      { exStateHidden with isInViewport := true } := by
  have h := requestLayout_hiddenSkip { exStateHidden with isInViewport := true }
    (some { width := 30, height := 40 }) rfl (by decide)
  exact ⟨h.1, h.2.1 rfl⟩

/-- C5 counterexample: with hidden-skipping enabled and the container hidden,
a request issued while the instance is not intersecting is deferred — the
deferred flag becomes set and the dimension is stashed — not dropped,
contrary to the claim's "regardless of the intersection state (the hidden
request is dropped, not deferred)". -/
theorem requestLayout_hiddenSkip_counterexample :
    exStateHidden.props.skipLayoutWhenHidden = true ∧
    isContainerHidden exStateHidden = true ∧
    exStateHidden.isInViewport = false ∧
    exStateHidden.deferredLayoutRequest = false ∧
    (requestLayout exStateHidden
      (some { width := 30, height := 40 })).1.deferredLayoutRequest = true ∧
    (requestLayout exStateHidden
      (some { width := 30, height := 40 })).1.deferredLayoutDimension =
      some { width := 30, height := 40 } ∧
    (requestLayout exStateHidden (some { width := 30, height := 40 })).2 = [] := by
  decide

/-- C9: evaluating `getLayoutDimension` at the failing configuration —
auto-fit disabled, max content height 10, container client box 100 by 50.
The code clamps the height to 10 even though auto-fit is disabled,
contradicting the in-code `maxContentHeight` documentation ("this only works
when autoFitContentHeight is true"), which `getLayoutDimensionPerDoc`
follows (height stays 50). -/
theorem getLayoutDimension_clampWithoutAutoFit :
    exStateNoFit.props.autoFitContentHeight = some false ∧
    exStateNoFit.props.maxContentHeight = some 10 ∧
    readEditorDomSize exStateNoFit = some { width := 100, height := 50 } ∧
    getLayoutDimension exStateNoFit = some { width := 100, height := 10 } ∧
    getLayoutDimensionPerDoc exStateNoFit = some { width := 100, height := 50 } := by
  decide

/-- C10: with completion enabled and a non-empty language, a caller-supplied
completion-registration callback is invoked with the language and the
default kernel-based provider is never registered — even when
`shouldRegisterDefaultCompletion` is also set; the default provider is
registered only when no callback is supplied and the flag is set; with
completion disabled or no language, neither happens. -/
theorem registerCompletionProvider_callbackPrecedence (p : Props) :
    (p.enableCompletion = true → p.language ≠ "" → p.onRegisterCompletionProvider = true →
      registerCompletionProvider p = [Effect.callOnRegisterCompletionProvider p.language]) ∧
    (p.enableCompletion = true → p.language ≠ "" → p.onRegisterCompletionProvider = false →
      p.shouldRegisterDefaultCompletion = true →
      registerCompletionProvider p = [Effect.registerDefaultCompletion p.language]) ∧
    (p.enableCompletion = true → p.language ≠ "" → p.onRegisterCompletionProvider = false →
      p.shouldRegisterDefaultCompletion = false → registerCompletionProvider p = []) ∧
    (p.enableCompletion = false ∨ p.language = "" → registerCompletionProvider p = []) ∧
    (∀ l, Effect.registerDefaultCompletion l ∈ registerCompletionProvider p →
      p.onRegisterCompletionProvider = false ∧ p.shouldRegisterDefaultCompletion = true) := by
  refine ⟨?_, ?_, ?_, ?_, ?_⟩
  · intro h1 h2 h3
    simp [registerCompletionProvider, h1, h2, h3]
  · intro h1 h2 h3 h4
    simp [registerCompletionProvider, h1, h2, h3, h4]
  · intro h1 h2 h3 h4
    simp [registerCompletionProvider, h1, h2, h3, h4]
  · intro h
    rcases h with h | h <;> simp [registerCompletionProvider, h]
  · intro l hmem
    unfold registerCompletionProvider at hmem
    split at hmem
    · split at hmem
      · simp at hmem
      · split at hmem
        · simp_all
        · simp at hmem
    · simp at hmem

/-- Witness for C10: with both the caller callback and the default flag set,
only the caller callback is invoked. -/
theorem registerCompletionProvider_callbackPrecedence_witness :
    registerCompletionProvider
      { exProps with onRegisterCompletionProvider := true,
                     shouldRegisterDefaultCompletion := true } =
      [Effect.callOnRegisterCompletionProvider "python"] :=
  (registerCompletionProvider_callbackPrecedence
    { exProps with onRegisterCompletionProvider := true,
                   shouldRegisterDefaultCompletion := true }).1 rfl (by decide) rfl

/-- C7: for a rate-limited pointer-move with the queried parameter-hint popup
present and visible: if the pointer lies strictly outside the popup's
bounding box expanded by the 5-pixel padding on every side, every popup in
every other editor's container is hidden — the "visible" class is stripped
and inline visibility forced to hidden — while pointer coordinates inside
the expanded bounds (inclusive) leave the document untouched. -/
theorem handleCoordsOutsideWidgetActiveRegion_dismissal (doc : Document) (x y : Int)
    (w : Widget) (hw : queryParameterWidget doc = some w)
    (_hv : "visible" ∈ w.classes) (_hnh : w.visibilityHidden = false) :
    (coordsInsideElement (some w.rect) x y HOVER_BOUND_DEFAULT_PADDING = false →
      ∀ c ∈ handleCoordsOutsideWidgetActiveRegion true doc x y, c.isOwn = false →
        ∀ wd ∈ c.widgets, "visible" ∉ wd.classes ∧ wd.visibilityHidden = true) ∧
    (coordsInsideElement (some w.rect) x y HOVER_BOUND_DEFAULT_PADDING = true →
      handleCoordsOutsideWidgetActiveRegion true doc x y = doc) := by
  constructor
  · intro hout c hc hown wd hwd
    have hc' : c ∈ hideAllOtherParameterWidgets true doc := by
      simpa [handleCoordsOutsideWidgetActiveRegion, hw, hout] using hc
    simp [hideAllOtherParameterWidgets] at hc'
    rcases hc' with ⟨c0, _, hceq⟩
    rcases h0 : c0.isOwn with _ | _
    · rw [if_neg (by simp [h0])] at hceq
      subst hceq
      simp only [hideWidgets, List.mem_map] at hwd
      rcases hwd with ⟨w0, _, hwdeq⟩
      subst hwdeq
      refine ⟨?_, rfl⟩
      intro hmem
      have hpred := List.of_mem_filter hmem
      simp at hpred
    · rw [if_pos (by simp [h0])] at hceq
      subst hceq
      rw [h0] at hown
      cases hown
  · intro hin
    simp [handleCoordsOutsideWidgetActiveRegion, hw, hin]

/-- Witness for C7: in a two-editor document, a pointer far outside the
visible popup's padded bounds hides the sibling editor's popup, while a
pointer inside the bounds leaves the document untouched. -/
theorem handleCoordsOutsideWidgetActiveRegion_dismissal_witness :
    (∀ c ∈ handleCoordsOutsideWidgetActiveRegion true exDoc 500 500, c.isOwn = false →
      ∀ wd ∈ c.widgets, "visible" ∉ wd.classes ∧ wd.visibilityHidden = true) ∧
    handleCoordsOutsideWidgetActiveRegion true exDoc 50 10 = exDoc := by
  constructor
  · exact (handleCoordsOutsideWidgetActiveRegion_dismissal exDoc 500 500 exVisibleWidget
      (by decide) (by decide) rfl).1 (by decide)
  · exact (handleCoordsOutsideWidgetActiveRegion_dismissal exDoc 50 10 exVisibleWidget
      (by decide) (by decide) rfl).2 (by decide)

/-- C8 (amended): on unmount, every disposal error is caught and surfaces
only as a single log effect, never propagated; the resize observer (when a
container exists) and the intersection observation (when registered) are
removed, and the mouse-move listener is disposed unconditionally; the
internal editor handle is cleared exactly when no disposal step threw — a
disposal error leaves the handle set. -/
theorem componentWillUnmount_teardown (s : MonacoState) (env : UnmountEnv) (e : Editor)
    (he : s.editor = some e) :
    (countEffects isLogErrorEffect (componentWillUnmount s env).2 =
      if unmountThrew e env then 1 else 0) ∧
    ((componentWillUnmount s env).1.editor = none ↔ unmountThrew e env = false) ∧
    (s.hasContainer = true → Effect.unobserveResize ∈ (componentWillUnmount s env).2) ∧
    (s.intersectObserving = true →
      Effect.unobserveIntersect ∈ (componentWillUnmount s env).2) ∧
    (s.mouseMoveListener = true → Effect.disposeMouseMove ∈ (componentWillUnmount s env).2) := by
  simp only [componentWillUnmount, disposeOnUnmount, he]
  rcases hm : e.model with _ | m <;>
  rcases hmt : env.modelDisposeThrows with _ | _ <;>
  rcases het : env.editorDisposeThrows with _ | _ <;>
  rcases hhc : s.hasContainer with _ | _ <;>
  rcases hio : s.intersectObserving with _ | _ <;>
  rcases hmm : s.mouseMoveListener with _ | _ <;>
  simp_all [unmountThrew, countEffects, isLogErrorEffect]

/-- Witness for C8 (amended): a clean teardown of the concrete mounted state
logs nothing, removes the resize observer, disposes the mouse-move listener,
and clears the handle. -/
theorem componentWillUnmount_teardown_witness :
    countEffects isLogErrorEffect
      (componentWillUnmount exState
        { modelDisposeThrows := false, editorDisposeThrows := false }).2 = 0 ∧
    (componentWillUnmount exState
      { modelDisposeThrows := false, editorDisposeThrows := false }).1.editor = none ∧
    Effect.unobserveResize ∈ (componentWillUnmount exState
      { modelDisposeThrows := false, editorDisposeThrows := false }).2 ∧
    Effect.disposeMouseMove ∈ (componentWillUnmount exState
      { modelDisposeThrows := false, editorDisposeThrows := false }).2 := by
  have h := componentWillUnmount_teardown exState
    { modelDisposeThrows := false, editorDisposeThrows := false } exEditor rfl
  exact ⟨h.1, h.2.1.mpr (by decide), h.2.2.1 rfl, h.2.2.2.2 rfl⟩

/-- C8 counterexample: when model disposal throws during unmount, the error
is caught and logged, but the editor handle is not cleared — it remains set,
contradicting the claim that a disposal error does not prevent clearing the
internal handle. -/
theorem componentWillUnmount_handleNotCleared :
    (componentWillUnmount exState
      { modelDisposeThrows := true, editorDisposeThrows := false }).1.editor =
      some exEditor ∧
    Effect.logError ∈ (componentWillUnmount exState
      { modelDisposeThrows := true, editorDisposeThrows := false }).2 := by
  decide

/-- C6: programmatic focus discipline over mount and update. On mount, the
native focus call is issued exactly when the container exists, the
editorFocused flag is set, and the freshly created editor does not already
hold widget focus (`hasWidgetFocus` false); on update, when the flag is
false or the live editor already holds widget focus, zero focus calls
occur anywhere in the pass. -/
theorem focusDiscipline (sM sU : MonacoState) (created eU : Editor)
    (prevProps : Props) (heU : sU.editor = some eU) :
    (countEffects isFocusEffect (componentDidMount sM created).2 =
      if sM.hasContainer && sM.props.editorFocused && !created.hasWidgetFocus
      then 1 else 0) ∧
    (sU.props.editorFocused = false →
      countEffects isFocusEffect (componentDidUpdate prevProps sU).effects = 0) ∧
    (eU.hasWidgetFocus = true →
      countEffects isFocusEffect (componentDidUpdate prevProps sU).effects = 0) :=
  ⟨countEffects_componentDidMount_focus sM created,
   fun hf => countEffects_componentDidUpdate_noFocusFlag prevProps sU eU heU hf,
   fun hw => countEffects_componentDidUpdate_widgetFocused prevProps sU eU heU hw⟩

/-- Witness for C6: mounting with the focus flag set and no prior widget
focus issues exactly one focus call, and an update with the flag false
issues none. -/
theorem focusDiscipline_witness :
    countEffects isFocusEffect
      (componentDidMount { exState with editor := none } exEditor).2 = 1 ∧
    countEffects isFocusEffect
      (componentDidUpdate exProps
        { exState with props := { exProps with editorFocused := false } }).effects = 0 := by
  have h := focusDiscipline { exState with editor := none }
    { exState with props := { exProps with editorFocused := false } }
    exEditor exEditor exProps rfl
  refine ⟨?_, h.2.1 rfl⟩
  rw [h.1]
  decide

end Monaco
